import Mathlib

/-
Shallow embedding of the generic CRUD repository core of the
FastAPI-Boilerplate repository:

  * src/utils/model_cast.py   (cast_filter and its per-type casters)
  * src/crud/base_crud.py     (BaseRepository: get_by_pk, get_one, get_list,
                               update, soft_delete and the async variants)

Modelling choices, stated once here:

  * A SQLAlchemy model class is a `Model`: a name plus a list of typed
    columns, one of which is marked primary.  `Model.colType` embeds the
    dictionary built from `mapper.columns`; `Model.hasField` embeds
    `hasattr(model, key)` restricted to declared columns, which is what the
    repository relies on for its column lookups.  The `TypeDecorator`
    unwrapping in the source resolves a column to a concrete backend type
    class before the dispatch table is consulted; `ColType` is that already
    resolved class (`text` is the SQLAlchemy Text class, which is distinct
    from String under the exact-class dictionary lookup, hence has no
    caster).
  * A database row is an association list from column names to `Value`s.
    The session-visible table content is a `List Row`; a SQL query is list
    filtering, ORDER BY is a structural sort under a fixed total order on
    values (the backend collation; no claim depends on which total order the
    backend uses), OFFSET is `List.drop` and LIMIT is `List.take`.
  * Python floats are embedded as `PyFloat` (a rational, or inf, -inf,
    nan); the rational is the exactly parsed decimal value, IEEE rounding is
    not modelled and no claim depends on it.  `datetime.now()` is passed in
    explicitly as a `now` argument.
  * Fallible code returns `Except PyError`; `PyError` keeps the exception
    class and the formatted message of the source.  Each repository
    operation also reports how many SQL statements it had executed by the
    time it returned or failed (`queries`), so that fail-fast ordering
    claims are statable; COMMIT is not a query, `session.refresh` is.
  * Logging via `logger.warning` is embedded as the `logs` component of
    `CastOut` for the caster, where a claim refers to it.
-/

namespace Boilerplate

/-- Python float values: a finite value (exact rational reading of the
decimal literal), the two infinities, or nan. -/
inductive PyFloat where
  | finite (q : ℚ)
  | inf
  | ninf
  | nan
deriving DecidableEq, Repr

/-- A `datetime.datetime` at second granularity, as produced by the two
accepted strptime formats. -/
structure PyDateTime where
  year : Nat
  month : Nat
  day : Nat
  hour : Nat
  minute : Nat
  second : Nat
deriving DecidableEq, Repr

/-- A Python runtime value as it appears in filter dictionaries and rows. -/
inductive Value where
  | none
  | int (n : ℤ)
  | float (f : PyFloat)
  | bool (b : Bool)
  | dt (d : PyDateTime)
  | str (s : String)
deriving DecidableEq, Repr

/-- The exception classes the embedded code can raise, with the formatted
message where the source formats one. -/
inductive PyError where
  | attributeError (msg : String)
  | valueError (msg : String)
  | multipleResultsFound
deriving DecidableEq, Repr

/-- Resolved backend column-type class, after the TypeDecorator unwrapping
of the source (`col_type.impl.__class__` when the declared type is a
TypeDecorator, else `col_type.__class__`). -/
inductive ColType where
  | integer
  | float
  | boolean
  | datetime
  | string
  | text
  | other (nm : String)
deriving DecidableEq, Repr

/-- One declared column of a model. -/
structure Column where
  name : String
  type : ColType
  primary : Bool := false
deriving DecidableEq, Repr

/-- A SQLAlchemy model class: its `__name__` and its declared columns. -/
structure Model where
  name : String
  columns : List Column
deriving DecidableEq, Repr

/-- The `column_type_map` of cast_filter: declared type of a column name,
`Option.none` when the key is not a declared column. -/
def Model.colType (m : Model) (k : String) : Option ColType :=
  (m.columns.find? (fun c => c.name == k)).map (fun c => c.type)

/-- `hasattr(model, key)` for the attributes the repository consults, i.e.
the declared columns. -/
def Model.hasField (m : Model) (k : String) : Bool :=
  (m.colType k).isSome

/-- `inspect(model).primary_key[0].name`, resolved once at repository
construction.  A model with no primary column would make the constructor
fail in Python; theorems about such a model are never stated. -/
def Model.pk (m : Model) : String :=
  ((m.columns.find? (fun c => c.primary)).map (fun c => c.name)).getD ""

/-- A row of the table: association list from column names to values. -/
abbrev Row := List (String × Value)

/-- `getattr(row, k)` on a mapped object, as an optional value. -/
def rowGet (r : Row) (k : String) : Option Value :=
  (r.find? (fun p => p.1 == k)).map (fun p => p.2)

/-- `setattr(row, k, v)`: replace the binding of `k` (append when absent,
which does not occur on well-formed rows). -/
def rowSet (r : Row) (k : String) (v : Value) : Row :=
  match r with
  | [] => [(k, v)]
  | (k0, v0) :: rest => if k0 == k then (k, v) :: rest else (k0, v0) :: rowSet rest k v

/- ----------------------------------------------------------------- -/
/- Python string-to-value coercion primitives (src/utils/model_cast.py) -/
/- ----------------------------------------------------------------- -/

/-- Python `str.lower()` restricted to ASCII, defined structurally on the
character list (every string the embedded code lower-cases is compared
against ASCII tokens, so the non-ASCII case tables of CPython are
irrelevant here). -/
def pyLower (s : String) : String := ⟨s.data.map Char.toLower⟩

/-- Python `str.strip()` on the ASCII whitespace relevant to numeric
literals, defined structurally on the character list. -/
def pyStrip (s : String) : String :=
  ⟨((s.data.dropWhile Char.isWhitespace).reverse.dropWhile Char.isWhitespace).reverse⟩

/-- Numeric value of a decimal digit character. -/
def digitVal (c : Char) : Nat := c.toNat - 48

/-- Continue a digit run in which a single underscore may stand between two
digits (the Python numeric-literal rule used by `int` and `float`). -/
def udigitsGo : List Char → Nat → Option Nat
  | [], acc => some acc
  | '_' :: c :: rest, acc =>
      if c.isDigit then udigitsGo rest (acc * 10 + digitVal c) else Option.none
  | c :: rest, acc =>
      if c.isDigit then udigitsGo rest (acc * 10 + digitVal c) else Option.none

/-- A nonempty digit run with optional medial underscores. -/
def udigits : List Char → Option Nat
  | [] => Option.none
  | c :: rest => if c.isDigit then udigitsGo rest (digitVal c) else Option.none

/-- Like `udigitsGo` but also counting the digits, for fraction scaling. -/
def udigitsCntGo : List Char → Nat → Nat → Option (Nat × Nat)
  | [], acc, n => some (acc, n)
  | '_' :: c :: rest, acc, n =>
      if c.isDigit then udigitsCntGo rest (acc * 10 + digitVal c) (n + 1) else Option.none
  | c :: rest, acc, n =>
      if c.isDigit then udigitsCntGo rest (acc * 10 + digitVal c) (n + 1) else Option.none

/-- A possibly empty digit run with optional medial underscores, returning
value and digit count; used for the integer and fraction parts of a float
literal, at least one of which must be nonempty. -/
def udigitsCnt : List Char → Option (Nat × Nat)
  | [] => some (0, 0)
  | c :: rest => if c.isDigit then udigitsCntGo rest (digitVal c) 1 else Option.none

/-- Python `int(s)` on a string: surrounding whitespace, an optional sign,
then a nonempty decimal digit run with optional medial underscores.
(Non-ASCII digit alphabets accepted by CPython are not modelled.) -/
def pyInt (s : String) : Option Int :=
  match (pyStrip s).toList with
  | '+' :: rest => (udigits rest).map (fun n => (n : Int))
  | '-' :: rest => (udigits rest).map (fun n => -(n : Int))
  | rest => (udigits rest).map (fun n => (n : Int))

/-- The mantissa of a float literal: digits, an optional point, digits;
at least one digit overall. -/
def pyFloatMantissa (cs : List Char) : Option ℚ :=
  match cs.splitOn '.' with
  | [ip] =>
      match udigitsCnt ip with
      | some (iv, icnt) => if icnt = 0 then Option.none else some (iv : ℚ)
      | Option.none => Option.none
  | [ip, fp] =>
      match udigitsCnt ip, udigitsCnt fp with
      | some (iv, icnt), some (fv, fcnt) =>
          if icnt + fcnt = 0 then Option.none
          else some ((iv : ℚ) + (fv : ℚ) / (10 : ℚ) ^ (fcnt : ℕ))
      | _, _ => Option.none
  | _ => Option.none

/-- The signed exponent of a float literal. -/
def pyFloatExp (cs : List Char) : Option Int :=
  match cs with
  | '+' :: rest => (udigits rest).map (fun n => (n : Int))
  | '-' :: rest => (udigits rest).map (fun n => -(n : Int))
  | rest => (udigits rest).map (fun n => (n : Int))

/-- The unsigned body of a float literal: `inf`, `infinity`, `nan`, or a
mantissa with an optional exponent part split on `e`. -/
def pyFloatBody (neg : Bool) (cs : List Char) : Option PyFloat :=
  if cs = "inf".toList ∨ cs = "infinity".toList then
    some (if neg then PyFloat.ninf else PyFloat.inf)
  else if cs = "nan".toList then
    some PyFloat.nan
  else
    match cs.splitOn 'e' with
    | [mant] =>
        (pyFloatMantissa mant).map (fun q => PyFloat.finite (if neg then -q else q))
    | [mant, ex] =>
        match pyFloatMantissa mant, pyFloatExp ex with
        | some q, some e =>
            some (PyFloat.finite ((if neg then -q else q) * (10 : ℚ) ^ e))
        | _, _ => Option.none
    | _ => Option.none

/-- Python `float(s)` on a string: surrounding whitespace, an optional
sign, then `inf`/`infinity`/`nan` (case-insensitive) or a decimal literal
with optional fraction and exponent, with medial underscores allowed in
every digit run.  The finite result is the exact rational value. -/
def pyFloat (s : String) : Option PyFloat :=
  match (pyLower (pyStrip s)).toList with
  | '+' :: rest => pyFloatBody false rest
  | '-' :: rest => pyFloatBody true rest
  | rest => pyFloatBody false rest

/-- `_cast_to_int`: `int(value)`, with the CPython failure message. -/
def cast_to_int (value : String) : Except String Value :=
  match pyInt value with
  | some n => Except.ok (Value.int n)
  | Option.none =>
      Except.error ("invalid literal for int() with base 10: \x27" ++ value ++ "\x27")

/-- `_cast_to_float`: `float(value)`, with the CPython failure message. -/
def cast_to_float (value : String) : Except String Value :=
  match pyFloat value with
  | some f => Except.ok (Value.float f)
  | Option.none =>
      Except.error ("could not convert string to float: \x27" ++ value ++ "\x27")

/-- `_cast_to_bool`: case-insensitive membership in the accepted true and
false token sets. -/
def cast_to_bool (value : String) : Except String Value :=
  if pyLower value ∈ (["true", "1", "yes", "y", "t"] : List String) then
    Except.ok (Value.bool true)
  else if pyLower value ∈ (["false", "0", "no", "n", "f"] : List String) then
    Except.ok (Value.bool false)
  else
    Except.error ("Cannot convert to boolean: " ++ value)

/-- Expect one concrete character. -/
def expectChar (c : Char) : List Char → Option (List Char)
  | x :: rest => if x = c then some rest else Option.none
  | [] => Option.none

/-- strptime numeric field of one or two digits: try the greedy two-digit
reading first and fall back to one digit, like the backtracking regular
expressions CPython compiles for `%m`, `%d`, `%H`, `%M`, `%S`; `check`
carries the per-field value constraint of those expressions. -/
def parse2or1 {α : Type} (check : Nat → Bool) (cs : List Char)
    (k : Nat → List Char → Option α) : Option α :=
  match cs with
  | c1 :: c2 :: rest =>
      if c1.isDigit then
        if c2.isDigit ∧ check (digitVal c1 * 10 + digitVal c2) then
          match k (digitVal c1 * 10 + digitVal c2) rest with
          | some v => some v
          | Option.none =>
              if check (digitVal c1) then k (digitVal c1) (c2 :: rest) else Option.none
        else if check (digitVal c1) then k (digitVal c1) (c2 :: rest) else Option.none
      else Option.none
  | [c1] =>
      if c1.isDigit ∧ check (digitVal c1) then k (digitVal c1) [] else Option.none
  | [] => Option.none

/-- Day count of a month in the proleptic Gregorian calendar used by
`datetime`. -/
def daysInMonth (y mo : Nat) : Nat :=
  if mo = 2 then
    if y % 4 = 0 ∧ (y % 100 ≠ 0 ∨ y % 400 = 0) then 29 else 28
  else if mo ∈ ([4, 6, 9, 11] : List Nat) then 30 else 31

/-- strptime for the date part `%Y-%m-%d`: a four-digit year, then month
1..12 and day 1..31 of one or two digits; the constructed datetime must
also satisfy the calendar (year at least 1, day within the month), which
CPython checks in the datetime constructor. -/
def parseYMD (cs : List Char) : Option (Nat × Nat × Nat × List Char) :=
  match cs with
  | y1 :: y2 :: y3 :: y4 :: rest =>
      if y1.isDigit ∧ y2.isDigit ∧ y3.isDigit ∧ y4.isDigit then
        let y := ((digitVal y1 * 10 + digitVal y2) * 10 + digitVal y3) * 10 + digitVal y4
        match expectChar '-' rest with
        | Option.none => Option.none
        | some r1 =>
            parse2or1 (fun mo => 1 ≤ mo ∧ mo ≤ 12) r1 (fun mo r2 =>
              match expectChar '-' r2 with
              | Option.none => Option.none
              | some r3 =>
                  parse2or1 (fun d => 1 ≤ d ∧ d ≤ 31) r3 (fun d r4 =>
                    if 1 ≤ y ∧ d ≤ daysInMonth y mo then some (y, mo, d, r4)
                    else Option.none))
      else Option.none
  | _ => Option.none

/-- strptime for `%Y-%m-%d %H:%M:%S` on the whole string. -/
def parseDateTimeLong (cs : List Char) : Option PyDateTime :=
  match parseYMD cs with
  | Option.none => Option.none
  | some (y, mo, d, rest) =>
      match expectChar ' ' rest with
      | Option.none => Option.none
      | some r1 =>
          parse2or1 (fun h => h ≤ 23) r1 (fun h r2 =>
            match expectChar ':' r2 with
            | Option.none => Option.none
            | some r3 =>
                parse2or1 (fun mi => mi ≤ 59) r3 (fun mi r4 =>
                  match expectChar ':' r4 with
                  | Option.none => Option.none
                  | some r5 =>
                      parse2or1 (fun sec => sec ≤ 59) r5 (fun sec r6 =>
                        if r6 = [] then some ⟨y, mo, d, h, mi, sec⟩ else Option.none)))

/-- strptime for `%Y-%m-%d` on the whole string. -/
def parseDateShort (cs : List Char) : Option PyDateTime :=
  match parseYMD cs with
  | some (y, mo, d, []) => some ⟨y, mo, d, 0, 0, 0⟩
  | _ => Option.none

/-- `_cast_to_datetime`: try the long format then the short one; midnight
for the date-only format; exhausting the list raises with the message of
the source. -/
def cast_to_datetime (value : String) : Except String Value :=
  match parseDateTimeLong value.toList with
  | some d => Except.ok (Value.dt d)
  | Option.none =>
      match parseDateShort value.toList with
      | some d => Except.ok (Value.dt d)
      | Option.none =>
          Except.error ("Cannot convert \x27" ++ value ++
            "\x27 to datetime. Use one of formats: [\x27%Y-%m-%d %H:%M:%S\x27, \x27%Y-%m-%d\x27]")

/-- `CASTING_MAP`: exact-class dispatch from the resolved column-type class
to a casting function; Text and unknown classes have no entry. -/
def CASTING_MAP (t : ColType) : Option (String → Except String Value) :=
  match t with
  | ColType.integer => some cast_to_int
  | ColType.float => some cast_to_float
  | ColType.boolean => some cast_to_bool
  | ColType.datetime => some cast_to_datetime
  | ColType.string => some (fun v => Except.ok (Value.str v))
  | ColType.text => Option.none
  | ColType.other _ => Option.none

/-- Printed name of the resolved column-type class, as interpolated into
the log lines of the source. -/
def ColType.clsName : ColType → String
  | ColType.integer => "Integer"
  | ColType.float => "Float"
  | ColType.boolean => "Boolean"
  | ColType.datetime => "DateTime"
  | ColType.string => "String"
  | ColType.text => "Text"
  | ColType.other nm => nm

/-- Message of the AttributeError cast_filter raises on an undeclared key. -/
def unknown_field_msg (m : Model) (key : String) : String :=
  "Filter key \x27" ++ key ++ "\x27 does not exist in model \x27" ++ m.name ++ "\x27."

/-- Message of the uniform ValueError cast_filter raises on a coercion
failure; it names the key and nothing about the underlying cause. -/
def invalid_value_msg (key : String) : String :=
  "Invalid value for \x27" ++ key ++ "\x27. Please check the format."

/-- The logger.warning line emitted when no casting function exists for a
resolved type class. -/
def no_caster_log (t : ColType) (key : String) : String :=
  "No casting function found for type \x27" ++ t.clsName ++ "\x27 for key \x27" ++
    key ++ "\x27. Using raw value."

/-- The logger.warning line emitted when a caster fails, carrying the
low-level cause. -/
def cast_fail_log (key value : String) (t : ColType) (cause : String) : String :=
  "Failed to cast value for key \x27" ++ key ++ "\x27. Value: \x27" ++ value ++
    "\x27, Type: " ++ t.clsName ++ ". Error: " ++ cause

instance {ε α : Type} [DecidableEq ε] [DecidableEq α] : DecidableEq (Except ε α) := fun a b =>
  match a, b with
  | Except.ok x, Except.ok y =>
      if h : x = y then isTrue (by rw [h]) else isFalse (fun hc => h (by cases hc; rfl))
  | Except.ok _, Except.error _ => isFalse (fun hc => by cases hc)
  | Except.error _, Except.ok _ => isFalse (fun hc => by cases hc)
  | Except.error x, Except.error y =>
      if h : x = y then isTrue (by rw [h]) else isFalse (fun hc => h (by cases hc; rfl))

/-- Result of cast_filter: the returned dictionary or raised exception,
plus the logger.warning lines emitted on the way. -/
structure CastOut where
  result : Except PyError (List (String × Value))
  logs : List String
deriving DecidableEq, Repr

/-- The per-entry body of the cast_filter loop, in source order: undeclared
key check, non-string pass-through, null literal check, dispatch, uniform
re-raise on caster failure. -/
def cast_entry (m : Model) (key : String) (value : Value) :
    Except PyError Value × List String :=
  match m.colType key with
  | Option.none => (Except.error (PyError.attributeError (unknown_field_msg m key)), [])
  | some t =>
      match value with
      | Value.str s =>
          if pyLower s ∈ (["null", "none"] : List String) then (Except.ok Value.none, [])
          else
            match CASTING_MAP t with
            | Option.none => (Except.ok (Value.str s), [no_caster_log t key])
            | some caster =>
                match caster s with
                | Except.ok v => (Except.ok v, [])
                | Except.error e =>
                    (Except.error (PyError.valueError (invalid_value_msg key)),
                      [cast_fail_log key s t e])
      | v => (Except.ok v, [])

/-- `cast_filter(model, filters)`: iterate the entries in order, build a
new dictionary, stop at the first failing entry.  The input list is the
insertion-ordered dictionary; the input is never mutated (the source builds
a fresh `casted_filters` dictionary). -/
def cast_filter (m : Model) (filters : List (String × Value)) : CastOut :=
  match filters with
  | [] => ⟨Except.ok [], []⟩
  | (key, value) :: rest =>
      match cast_entry m key value with
      | (Except.error e, lg) => ⟨Except.error e, lg⟩
      | (Except.ok v, lg) =>
          match cast_filter m rest with
          | ⟨Except.ok cs, lgs⟩ => ⟨Except.ok ((key, v) :: cs), lg ++ lgs⟩
          | ⟨Except.error e, lgs⟩ => ⟨Except.error e, lg ++ lgs⟩

/- ----------------------------------------------------------------- -/
/- Generic repository (src/crud/base_crud.py)                          -/
/- ----------------------------------------------------------------- -/

/-- `str(value)` as interpolated into f-string messages.  For finite
floats the rational value is printed; the shortest-repr formatting of
CPython is not modelled and no claim depends on it. -/
def Value.pyStr : Value → String
  | Value.none => "None"
  | Value.int n => toString n
  | Value.float (PyFloat.finite q) => toString q
  | Value.float PyFloat.inf => "inf"
  | Value.float PyFloat.ninf => "-inf"
  | Value.float PyFloat.nan => "nan"
  | Value.bool true => "True"
  | Value.bool false => "False"
  | Value.dt d =>
      toString d.year ++ "-" ++ toString d.month ++ "-" ++ toString d.day ++ " " ++
        toString d.hour ++ ":" ++ toString d.minute ++ ":" ++ toString d.second
  | Value.str s => s

/-- Rank of a value constructor, for the total backend collation order. -/
def Value.rank : Value → Nat
  | Value.none => 0
  | Value.int _ => 1
  | Value.float _ => 2
  | Value.bool _ => 3
  | Value.dt _ => 4
  | Value.str _ => 5

/-- Encode a datetime as one monotone natural number. -/
def PyDateTime.code (d : PyDateTime) : Nat :=
  ((((d.year * 13 + d.month) * 32 + d.day) * 24 + d.hour) * 60 + d.minute) * 60 + d.second

/-- Rank of a float for the collation order; nan sorts last, which is one
arbitrary choice of backend behaviour. -/
def PyFloat.rank : PyFloat → Nat
  | PyFloat.ninf => 0
  | PyFloat.finite _ => 1
  | PyFloat.inf => 2
  | PyFloat.nan => 3

/-- A fixed total order on values standing for the backend collation used
by ORDER BY.  Only its totality matters to any claim; rows of one column
share one constructor in a well-typed table anyway. -/
def valueLe (a b : Value) : Bool :=
  if a.rank = b.rank then
    match a, b with
    | Value.int x, Value.int y => x ≤ y
    | Value.float (PyFloat.finite x), Value.float (PyFloat.finite y) => x ≤ y
    | Value.float x, Value.float y => x.rank ≤ y.rank
    | Value.bool x, Value.bool y => x ≤ y
    | Value.dt x, Value.dt y => x.code ≤ y.code
    | Value.str x, Value.str y => x ≤ y
    | _, _ => true
  else a.rank ≤ b.rank

/-- Collation lifted to the optional result of a column read; an absent
column (never the case on well-formed rows) sorts first like NULL. -/
def optValueLe (a b : Option Value) : Bool :=
  match a, b with
  | Option.none, _ => true
  | some _, Option.none => false
  | some x, some y => valueLe x y

/-- Insert into a sorted list of rows. -/
def insertRow (le : Row → Row → Bool) (r : Row) : List Row → List Row
  | [] => [r]
  | x :: xs => if le r x then r :: x :: xs else x :: insertRow le r xs

/-- Structural insertion sort of the result rows: the deterministic stand-in
for the backend sort performed by ORDER BY. -/
def sortRowsBy (le : Row → Row → Bool) : List Row → List Row
  | [] => []
  | x :: xs => insertRow le x (sortRowsBy le xs)

/-- ORDER BY `key` ascending or descending. -/
def sortRows (key : String) (descend : Bool) (rs : List Row) : List Row :=
  if descend then sortRowsBy (fun a b => optValueLe (rowGet b key) (rowGet a key)) rs
  else sortRowsBy (fun a b => optValueLe (rowGet a key) (rowGet b key)) rs

/-- Result of a read-only repository call: the returned value or raised
exception, plus the number of SQL statements executed by then. -/
structure ReadOut (α : Type) where
  result : Except PyError α
  queries : Nat
deriving DecidableEq, Repr

/-- Result of a mutating repository call: returned value or raised
exception, SQL statements executed, and the session-visible table content
after the call. -/
structure WriteOut (α : Type) where
  result : Except PyError α
  queries : Nat
  db : List Row
deriving DecidableEq, Repr

/-- The WHERE clause produced by `_apply_filters` from the casted entries:
an equality predicate per entry whose key is an attribute of the model
(casting has already rejected undeclared keys, so the hasattr guard of the
source never filters anything out). -/
def matchesFilters (m : Model) (casted : List (String × Value)) (r : Row) : Bool :=
  casted.all (fun kv => if m.hasField kv.1 then rowGet r kv.1 == some kv.2 else true)

/-- `BaseRepository._apply_filters` applied to `select(model)` over the
table `db`: cast the filters, then keep the rows satisfying every equality
predicate.  Raises whatever cast_filter raises. -/
def _apply_filters (m : Model) (db : List Row) (filters : List (String × Value)) :
    Except PyError (List Row) :=
  match (cast_filter m filters).result with
  | Except.error e => Except.error e
  | Except.ok casted => Except.ok (db.filter (matchesFilters m casted))

/-- `Result.scalar_one_or_none()`: none on zero rows, the row on exactly
one, MultipleResultsFound on more. -/
def scalar_one_or_none (rs : List Row) : Except PyError (Option Row) :=
  match rs with
  | [] => Except.ok Option.none
  | [r] => Except.ok (some r)
  | _ => Except.error PyError.multipleResultsFound

/-- `BaseRepository.get_by_pk`: one SELECT filtered on the primary-key
column, read through scalar_one_or_none. -/
def get_by_pk (m : Model) (db : List Row) (pkv : Value) : Except PyError (Option Row) :=
  scalar_one_or_none (db.filter (fun r => rowGet r m.pk == some pkv))

/-- `BaseRepository.get_one`: filtered SELECT through scalar_one_or_none.
The cast failure propagates before the query runs. -/
def get_one (m : Model) (db : List Row) (filters : List (String × Value)) :
    ReadOut (Option Row) :=
  match _apply_filters m db filters with
  | Except.error e => ⟨Except.error e, 0⟩
  | Except.ok rs => ⟨scalar_one_or_none rs, 1⟩

/-- `BaseRepository.async_get_one`: same computation as the blocking form. -/
def async_get_one (m : Model) (db : List Row) (filters : List (String × Value)) :
    ReadOut (Option Row) :=
  match _apply_filters m db filters with
  | Except.error e => ⟨Except.error e, 0⟩
  | Except.ok rs => ⟨scalar_one_or_none rs, 1⟩

/-- Message of the ValueError raised by the blocking get_list on a bad
order argument. -/
def order_msg (order : String) : String :=
  "Invalid order: " ++ order ++ ". Use \x27asc\x27 or \x27desc\x27."

/-- Message of the ValueError raised by async_get_list on a bad order
argument (the async form wraps the value in backticks). -/
def async_order_msg (order : String) : String :=
  "Invalid order: `" ++ order ++ "`. Use \x27asc\x27 or \x27desc\x27."

/-- Message of the AttributeError raised by `getattr(model, name)` when the
model class has no such attribute. -/
def getattr_msg (m : Model) (k : String) : String :=
  "type object \x27" ++ m.name ++ "\x27 has no attribute \x27" ++ k ++ "\x27"

/-- The ordering column name: `order_by or self._primary_key_name`.  The
Python `or` falls back on every falsy value, so the empty string also
selects the primary key. -/
def orderKey (m : Model) (order_by : Option String) : String :=
  match order_by with
  | Option.none => m.pk
  | some s => if s = "" then m.pk else s

/-- `BaseRepository.get_list`: validate the order argument, build the
filtered query, run the COUNT query, resolve the ordering column, then run
the page SELECT with OFFSET `skip * limit` and LIMIT `limit`. -/
def get_list (m : Model) (db : List Row) (skip limit : Nat) (order : String)
    (order_by : Option String) (filters : List (String × Value)) :
    ReadOut (Nat × List Row) :=
  if pyLower order ∉ (["asc", "desc"] : List String) then
    ⟨Except.error (PyError.valueError (order_msg order)), 0⟩
  else
    match _apply_filters m db filters with
    | Except.error e => ⟨Except.error e, 0⟩
    | Except.ok rs =>
        let total := rs.length
        let key := orderKey m order_by
        if m.hasField key then
          let sorted := sortRows key (pyLower order = "desc") rs
          ⟨Except.ok (total, (sorted.drop (skip * limit)).take limit), 2⟩
        else ⟨Except.error (PyError.attributeError (getattr_msg m key)), 1⟩

/-- `BaseRepository.async_get_list`: identical to the blocking form except
for the backticks in the invalid-order message. -/
def async_get_list (m : Model) (db : List Row) (skip limit : Nat) (order : String)
    (order_by : Option String) (filters : List (String × Value)) :
    ReadOut (Nat × List Row) :=
  if pyLower order ∉ (["asc", "desc"] : List String) then
    ⟨Except.error (PyError.valueError (async_order_msg order)), 0⟩
  else
    match _apply_filters m db filters with
    | Except.error e => ⟨Except.error e, 0⟩
    | Except.ok rs =>
        let total := rs.length
        let key := orderKey m order_by
        if m.hasField key then
          let sorted := sortRows key (pyLower order = "desc") rs
          ⟨Except.ok (total, (sorted.drop (skip * limit)).take limit), 2⟩
        else ⟨Except.error (PyError.attributeError (getattr_msg m key)), 1⟩

/-- The setattr loop over the casted update data. -/
def applyData (r : Row) (casted : List (String × Value)) : Row :=
  casted.foldl (fun acc kv => rowSet acc kv.1 kv.2) r

/-- Commit of a mutated ORM object: the rows whose primary-key column held
`pkv` at load time now hold the mutated object. -/
def replaceRow (db : List Row) (pkName : String) (pkv : Value) (newR : Row) : List Row :=
  db.map (fun r => if rowGet r pkName == some pkv then newR else r)

/-- Message of the warning logged (and, in the async form, of the
ValueError raised) when the primary key matches nothing. -/
def not_found_msg (m : Model) (pkv : Value) : String :=
  "Object with primary key `" ++ pkv.pyStr ++ "` not found in " ++ m.name ++ "."

/-- `BaseRepository.update`: load by key (one SELECT); absent keys return
None; otherwise cast the payload (after that query), apply the
assignments, touch `updated_at` when the model declares it, commit and
refresh (a second SELECT). -/
def update (m : Model) (db : List Row) (pkv : Value)
    (update_data : List (String × Value)) (now : PyDateTime) : WriteOut (Option Row) :=
  match get_by_pk m db pkv with
  | Except.error e => ⟨Except.error e, 1, db⟩
  | Except.ok Option.none => ⟨Except.ok Option.none, 1, db⟩
  | Except.ok (some dbObj) =>
      match (cast_filter m update_data).result with
      | Except.error e => ⟨Except.error e, 1, db⟩
      | Except.ok casted =>
          let obj1 := applyData dbObj casted
          let obj2 := if m.hasField "updated_at" then rowSet obj1 "updated_at" (Value.dt now)
            else obj1
          ⟨Except.ok (some obj2), 2, replaceRow db m.pk pkv obj2⟩

/-- `BaseRepository.async_update`: identical to the blocking form except
that an absent key raises a ValueError naming the key and the model. -/
def async_update (m : Model) (db : List Row) (pkv : Value)
    (update_data : List (String × Value)) (now : PyDateTime) : WriteOut (Option Row) :=
  match get_by_pk m db pkv with
  | Except.error e => ⟨Except.error e, 1, db⟩
  | Except.ok Option.none =>
      ⟨Except.error (PyError.valueError (not_found_msg m pkv)), 1, db⟩
  | Except.ok (some dbObj) =>
      match (cast_filter m update_data).result with
      | Except.error e => ⟨Except.error e, 1, db⟩
      | Except.ok casted =>
          let obj1 := applyData dbObj casted
          let obj2 := if m.hasField "updated_at" then rowSet obj1 "updated_at" (Value.dt now)
            else obj1
          ⟨Except.ok (some obj2), 2, replaceRow db m.pk pkv obj2⟩

/-- `BaseRepository.soft_delete`: load by key; absent keys return false;
when the model declares `deleted_at` the loaded object is stamped with the
current time (the commit is left to the session scope, but the mutation is
already session-visible) and true is returned; otherwise false and no
change. -/
def soft_delete (m : Model) (db : List Row) (pkv : Value) (now : PyDateTime) :
    WriteOut Bool :=
  match get_by_pk m db pkv with
  | Except.error e => ⟨Except.error e, 1, db⟩
  | Except.ok Option.none => ⟨Except.ok false, 1, db⟩
  | Except.ok (some dbObj) =>
      if m.hasField "deleted_at" then
        ⟨Except.ok true, 1, replaceRow db m.pk pkv (rowSet dbObj "deleted_at" (Value.dt now))⟩
      else ⟨Except.ok false, 1, db⟩

/-- `BaseRepository.async_soft_delete`: same observable behaviour as the
blocking form on the session-visible state; it commits immediately and
refreshes the object, so one more SELECT runs on the success path. -/
def async_soft_delete (m : Model) (db : List Row) (pkv : Value) (now : PyDateTime) :
    WriteOut Bool :=
  match get_by_pk m db pkv with
  | Except.error e => ⟨Except.error e, 1, db⟩
  | Except.ok Option.none => ⟨Except.ok false, 1, db⟩
  | Except.ok (some dbObj) =>
      if m.hasField "deleted_at" then
        ⟨Except.ok true, 2, replaceRow db m.pk pkv (rowSet dbObj "deleted_at" (Value.dt now))⟩
      else ⟨Except.ok false, 1, db⟩

/-- The Sample model of src/infrastructure/database/models.py: integer
primary key `id`, String(50) `name`, Text `description`. -/
def sample : Model :=
  { name := "Sample",
    columns :=
      [ { name := "id", type := ColType.integer, primary := true },
        { name := "name", type := ColType.string },
        { name := "description", type := ColType.text } ] }

/-- Whether a value is a Python string (the isinstance check of the
caster). -/
def Value.isStr : Value → Bool
  | Value.str _ => true
  | _ => false

/-- A concrete entity type exercising the optional `updated_at` and
`deleted_at` capability columns of the data model; the repository is
generic over the entity type, so concrete instances beyond Sample are
legitimate test inputs. -/
def account : Model :=
  { name := "Account",
    columns :=
      [ { name := "id", type := ColType.integer, primary := true },
        { name := "name", type := ColType.string },
        { name := "updated_at", type := ColType.datetime },
        { name := "deleted_at", type := ColType.datetime } ] }

/-- A fixed instant standing for `datetime.now()`. -/
def now0 : PyDateTime := ⟨2024, 1, 1, 12, 0, 0⟩

/-- Concrete Sample rows and table used as witness inputs. -/
def srow1 : Row := [("id", Value.int 1), ("name", Value.str "a"), ("description", Value.none)]

def srow2 : Row := [("id", Value.int 2), ("name", Value.str "b"), ("description", Value.none)]

def srow3 : Row := [("id", Value.int 3), ("name", Value.str "b"), ("description", Value.none)]

def sdb : List Row := [srow2, srow1, srow3]

/-- A concrete Account row. -/
def arow1 : Row :=
  [("id", Value.int 1), ("name", Value.str "a"), ("updated_at", Value.none),
    ("deleted_at", Value.none)]

/- ----------------------------------------------------------------- -/
/- Helper lemmas                                                       -/
/- ----------------------------------------------------------------- -/

theorem scalar_one_or_none_eq_some {l : List Row} {r : Row}
    (h : scalar_one_or_none l = Except.ok (some r)) : l = [r] := by
  match l with
  | [] => simp [scalar_one_or_none] at h
  | [x] => simp [scalar_one_or_none] at h; simp [h]
  | x :: y :: t => simp [scalar_one_or_none] at h

theorem scalar_one_or_none_multi {l : List Row} (h : 2 ≤ l.length) :
    scalar_one_or_none l = Except.error PyError.multipleResultsFound := by
  match l with
  | [] => simp at h
  | [x] => simp at h
  | x :: y :: t => rfl

theorem cast_filter_ok_append_error {m : Model} {F₁ G : List (String × Value)}
    {cs : List (String × Value)} {e : PyError}
    (h₁ : (cast_filter m F₁).result = Except.ok cs)
    (h₂ : (cast_filter m G).result = Except.error e) :
    (cast_filter m (F₁ ++ G)).result = Except.error e := by
  induction F₁ generalizing cs with
  | nil => simpa using h₂
  | cons hd tl ih =>
      obtain ⟨key, value⟩ := hd
      rw [cast_filter] at h₁
      rcases hce : cast_entry m key value with ⟨er, lg⟩
      rw [hce] at h₁
      cases er with
      | error e0 => simp at h₁
      | ok v =>
          rcases hrest : cast_filter m tl with ⟨res, lgs⟩
          rw [hrest] at h₁
          cases res with
          | error e0 => simp at h₁
          | ok cs0 =>
              simp at h₁
              rw [List.cons_append, cast_filter, hce]
              rcases happ : cast_filter m (tl ++ G) with ⟨resA, lgsA⟩
              have := ih (show (cast_filter m tl).result = Except.ok cs0 by rw [hrest])
              rw [happ] at this
              cases resA with
              | error eA => simp at this; simp [this]
              | ok csA => simp at this

theorem rowGet_rowSet_ne {r : Row} {k k' : String} {v : Value} (h : k' ≠ k) :
    rowGet (rowSet r k v) k' = rowGet r k' := by
  have hkk : (k == k') = false := by
    simp only [beq_eq_false_iff_ne, ne_eq]
    intro hc
    exact h hc.symm
  induction r with
  | nil => simp [rowSet, rowGet, List.find?, hkk]
  | cons hd tl ih =>
      obtain ⟨k0, v0⟩ := hd
      cases h0 : (k0 == k) with
      | true =>
          simp only [rowSet, h0, if_true]
          have h0' : k0 = k := by simpa using h0
          subst h0'
          simp [rowGet, List.find?, hkk]
      | false =>
          simp only [rowSet, h0, Bool.false_eq_true, if_false]
          cases h1 : (k0 == k') with
          | true => simp [rowGet, List.find?, h1]
          | false =>
              simp only [rowGet, List.find?, h1] at ih ⊢
              exact ih

theorem filter_map_keep_nil {p : Row → Bool} {db : List Row} {new : Row}
    (h : db.filter p = []) :
    (db.map (fun x => if p x then new else x)).filter p = [] := by
  induction db with
  | nil => simp
  | cons hd tl ih =>
      rw [List.filter_cons] at h
      cases hp : p hd with
      | true => rw [hp] at h; simp at h
      | false =>
          rw [hp] at h
          simp only [Bool.false_eq_true, if_false] at h
          simp only [List.map_cons, hp, Bool.false_eq_true, if_false, List.filter_cons]
          exact ih h

theorem filter_map_replace {p : Row → Bool} {db : List Row} {r new : Row}
    (h : db.filter p = [r]) (hnew : p new = true) :
    (db.map (fun x => if p x then new else x)).filter p = [new] := by
  induction db with
  | nil => simp at h
  | cons hd tl ih =>
      rw [List.filter_cons] at h
      cases hp : p hd with
      | true =>
          rw [hp] at h
          simp only [if_true] at h
          have htl : tl.filter p = [] := (List.cons_eq_cons.mp h).2
          simp [List.filter_cons, hp, hnew, filter_map_keep_nil htl]
      | false =>
          rw [hp] at h
          simp only [Bool.false_eq_true, if_false] at h
          simp only [List.map_cons, hp, Bool.false_eq_true, if_false, List.filter_cons]
          exact ih h

theorem cast_entry_ok_nonstr {m : Model} {k : String} {value v : Value} {lg : List String}
    (hns : value.isStr = false)
    (h : cast_entry m k value = (Except.ok v, lg)) : v = value := by
  cases hct : m.colType k with
  | none => simp [cast_entry, hct] at h
  | some t =>
      cases value with
      | str s => simp [Value.isStr] at hns
      | none => simp [cast_entry, hct] at h; exact h.1.symm
      | int n => simp [cast_entry, hct] at h; exact h.1.symm
      | float f => simp [cast_entry, hct] at h; exact h.1.symm
      | bool b => simp [cast_entry, hct] at h; exact h.1.symm
      | dt d => simp [cast_entry, hct] at h; exact h.1.symm

/- ----------------------------------------------------------------- -/
/- Claim theorems                                                      -/
/- ----------------------------------------------------------------- -/

/-- C4: for every declared field `k` of an entity and every string `v`
whose lower-casing equals null or none (hence also NULL, None, NONE, ...),
cast succeeds and maps `k` to the null value, whatever the declared column
type of `k` is. -/
theorem cast_null_literal (m : Model) (k : String) (t : ColType) (v : String)
    (hk : m.colType k = some t) (hv : pyLower v = "null" ∨ pyLower v = "none") :
    cast_filter m [(k, Value.str v)] = ⟨Except.ok [(k, Value.none)], []⟩ := by
  have hmem : pyLower v ∈ (["null", "none"] : List String) := by
    rcases hv with h | h <;> simp [h]
  simp [cast_filter, cast_entry, hk, hmem]

/-- Witness for C4: Sample, integer column id, value NULL. -/
theorem cast_null_literal_wit :
    cast_filter sample [("id", Value.str "NULL")] = ⟨Except.ok [("id", Value.none)], []⟩ :=
  cast_null_literal sample "id" ColType.integer "NULL" (by decide) (Or.inl (by decide))

/-- C6: a string value that the declared column type cannot coerce (its
caster fails) makes cast fail with the single uniform invalid-value
ValueError naming the offending key and saying nothing else; the low-level
cause appears only in the warning log line. -/
theorem cast_invalid_value_uniform (m : Model) (k : String) (t : ColType) (v : String)
    (caster : String → Except String Value) (cause : String)
    (hk : m.colType k = some t)
    (hnull : pyLower v ∉ (["null", "none"] : List String))
    (hc : CASTING_MAP t = some caster)
    (hfail : caster v = Except.error cause) :
    cast_filter m [(k, Value.str v)] =
      ⟨Except.error (PyError.valueError (invalid_value_msg k)),
        [cast_fail_log k v t cause]⟩ := by
  simp [cast_filter, cast_entry, hk, hnull, hc, hfail]

/-- Witness for C6: Sample, integer column id, value not-a-number. -/
theorem cast_invalid_value_uniform_wit :
    cast_filter sample [("id", Value.str "not-a-number")] =
      ⟨Except.error (PyError.valueError (invalid_value_msg "id")),
        [cast_fail_log "id" "not-a-number" ColType.integer
          "invalid literal for int() with base 10: \x27not-a-number\x27"]⟩ :=
  cast_invalid_value_uniform sample "id" ColType.integer "not-a-number" cast_to_int
    "invalid literal for int() with base 10: \x27not-a-number\x27"
    (by decide) (by decide) rfl (by decide)

/-- C9 counterexample: a filter mapping containing only declared fields on
which cast raises instead of returning a mapping — the claim omits the
needed premise that every string value is coercible. -/
theorem cast_passthrough_counterexample :
    (([("id", Value.str "x")] : List (String × Value)).all
        (fun kv => sample.hasField kv.1)) = true ∧
    (cast_filter sample [("id", Value.str "x")]).result =
      Except.error (PyError.valueError (invalid_value_msg "id")) :=
  ⟨by decide, by decide⟩

/-- C9 (amended): when cast returns a mapping, that mapping has exactly the
keys of the input in order, and every non-string input value is passed
through unchanged; the input is not mutated, which in this embedding is the
purity of cast_filter (the source builds a fresh dictionary). -/
theorem cast_passthrough (m : Model) (F cs : List (String × Value))
    (h : (cast_filter m F).result = Except.ok cs) :
    List.Forall₂ (fun a b : String × Value =>
      a.1 = b.1 ∧ (a.2.isStr = false → b.2 = a.2)) F cs := by
  induction F generalizing cs with
  | nil =>
      simp [cast_filter] at h
      subst h
      exact List.Forall₂.nil
  | cons hd tl ih =>
      obtain ⟨key, value⟩ := hd
      rw [cast_filter] at h
      rcases hce : cast_entry m key value with ⟨er, lg⟩
      rw [hce] at h
      cases er with
      | error e0 => simp at h
      | ok v =>
          rcases hrest : cast_filter m tl with ⟨res, lgs⟩
          rw [hrest] at h
          cases res with
          | error e0 => simp at h
          | ok cs0 =>
              simp at h
              subst h
              refine List.Forall₂.cons ⟨rfl, ?_⟩ (ih cs0 (by rw [hrest]))
              intro hstr
              exact cast_entry_ok_nonstr hstr hce

/-- Witness for C9: a coercible string and a non-string value on Sample. -/
theorem cast_passthrough_wit :
    List.Forall₂ (fun a b : String × Value =>
      a.1 = b.1 ∧ (a.2.isStr = false → b.2 = a.2))
      [("id", Value.str "5"), ("name", Value.int 7)]
      [("id", Value.int 5), ("name", Value.int 7)] :=
  cast_passthrough sample [("id", Value.str "5"), ("name", Value.int 7)]
    [("id", Value.int 5), ("name", Value.int 7)] (by decide)

theorem cast_entry_undeclared {m : Model} {k : String} {v : Value}
    (h : m.hasField k = false) :
    cast_entry m k v = (Except.error (PyError.attributeError (unknown_field_msg m k)), []) := by
  cases hct : m.colType k with
  | none => simp [cast_entry, hct]
  | some t => simp [Model.hasField, hct] at h

theorem rowGet_rowSet_self (r : Row) (k : String) (v : Value) :
    rowGet (rowSet r k v) k = some v := by
  induction r with
  | nil => simp [rowSet, rowGet, List.find?]
  | cons hd tl ih =>
      obtain ⟨k0, v0⟩ := hd
      cases h0 : (k0 == k) with
      | true => simp [rowSet, h0, rowGet, List.find?]
      | false =>
          simp only [rowSet, h0, Bool.false_eq_true, if_false]
          simp only [rowGet, List.find?, h0] at ih ⊢
          exact ih

/-- C5 counterexample: an update payload whose first entry holds an
uncastable value and whose second key (ghost) is undeclared, against a
table in which the primary key exists.  The raised error is the uniform
invalid-value ValueError for the first entry — not an unknown-field error
naming ghost — and the key-lookup SELECT has already executed (one query,
not zero), refuting both the error choice and the no-query-executed part of
the claim. -/
theorem unknown_field_counterexample :
    sample.hasField "ghost" = false ∧
    update sample [srow1] (Value.int 1)
        [("id", Value.str "x"), ("ghost", Value.str "1")] now0 =
      ⟨Except.error (PyError.valueError (invalid_value_msg "id")), 1, [srow1]⟩ ∧
    invalid_value_msg "id" ≠ unknown_field_msg sample "ghost" :=
  ⟨by decide, by decide, by decide⟩

/-- C5 (amended): a filter or update payload containing an undeclared key
makes the operation fail with no state change; when every entry before the
undeclared key casts successfully the error is the unknown-field
AttributeError naming that key.  get_one and get_list (and the async
forms) fail before executing any query; update and async_update cast only
after their key-lookup SELECT, so when the key is found they fail with the
same error after one query, the table left unchanged. -/
theorem unknown_field_fail_fast (m : Model) (db : List Row)
    (F₁ F₂ cs : List (String × Value)) (k : String) (v : Value)
    (skip limit : Nat) (order : String) (ob : Option String)
    (pkv : Value) (r : Row) (now : PyDateTime)
    (hk : m.hasField k = false)
    (hcs : (cast_filter m F₁).result = Except.ok cs)
    (horder : pyLower order ∈ (["asc", "desc"] : List String))
    (hpk : get_by_pk m db pkv = Except.ok (some r)) :
    ((cast_filter m (F₁ ++ (k, v) :: F₂)).result =
        Except.error (PyError.attributeError (unknown_field_msg m k))) ∧
    get_one m db (F₁ ++ (k, v) :: F₂) =
      ⟨Except.error (PyError.attributeError (unknown_field_msg m k)), 0⟩ ∧
    async_get_one m db (F₁ ++ (k, v) :: F₂) =
      ⟨Except.error (PyError.attributeError (unknown_field_msg m k)), 0⟩ ∧
    get_list m db skip limit order ob (F₁ ++ (k, v) :: F₂) =
      ⟨Except.error (PyError.attributeError (unknown_field_msg m k)), 0⟩ ∧
    async_get_list m db skip limit order ob (F₁ ++ (k, v) :: F₂) =
      ⟨Except.error (PyError.attributeError (unknown_field_msg m k)), 0⟩ ∧
    update m db pkv (F₁ ++ (k, v) :: F₂) now =
      ⟨Except.error (PyError.attributeError (unknown_field_msg m k)), 1, db⟩ ∧
    async_update m db pkv (F₁ ++ (k, v) :: F₂) now =
      ⟨Except.error (PyError.attributeError (unknown_field_msg m k)), 1, db⟩ := by
  have hheaderr : (cast_filter m ((k, v) :: F₂)).result =
      Except.error (PyError.attributeError (unknown_field_msg m k)) := by
    rw [cast_filter, cast_entry_undeclared hk]
  have hcf := cast_filter_ok_append_error hcs hheaderr
  refine ⟨hcf, ?_, ?_, ?_, ?_, ?_, ?_⟩
  · simp [get_one, _apply_filters, hcf]
  · simp [async_get_one, _apply_filters, hcf]
  · simp [get_list, horder, _apply_filters, hcf]
  · simp [async_get_list, horder, _apply_filters, hcf]
  · simp [update, hpk, hcf]
  · simp [async_update, hpk, hcf]

/-- Witness for C5 (amended): Sample, a clean leading entry, undeclared key
ghost, table containing primary key 1. -/
theorem unknown_field_fail_fast_wit :
    ((cast_filter sample [("name", Value.str "a"), ("ghost", Value.int 1)]).result =
        Except.error (PyError.attributeError (unknown_field_msg sample "ghost"))) ∧
    get_one sample [srow1] [("name", Value.str "a"), ("ghost", Value.int 1)] =
      ⟨Except.error (PyError.attributeError (unknown_field_msg sample "ghost")), 0⟩ ∧
    async_get_one sample [srow1] [("name", Value.str "a"), ("ghost", Value.int 1)] =
      ⟨Except.error (PyError.attributeError (unknown_field_msg sample "ghost")), 0⟩ ∧
    get_list sample [srow1] 0 5 "ASC" Option.none
        [("name", Value.str "a"), ("ghost", Value.int 1)] =
      ⟨Except.error (PyError.attributeError (unknown_field_msg sample "ghost")), 0⟩ ∧
    async_get_list sample [srow1] 0 5 "ASC" Option.none
        [("name", Value.str "a"), ("ghost", Value.int 1)] =
      ⟨Except.error (PyError.attributeError (unknown_field_msg sample "ghost")), 0⟩ ∧
    update sample [srow1] (Value.int 1)
        [("name", Value.str "a"), ("ghost", Value.int 1)] now0 =
      ⟨Except.error (PyError.attributeError (unknown_field_msg sample "ghost")), 1, [srow1]⟩ ∧
    async_update sample [srow1] (Value.int 1)
        [("name", Value.str "a"), ("ghost", Value.int 1)] now0 =
      ⟨Except.error (PyError.attributeError (unknown_field_msg sample "ghost")), 1, [srow1]⟩ :=
  unknown_field_fail_fast sample [srow1] [("name", Value.str "a")] [] [("name", Value.str "a")]
    "ghost" (Value.int 1) 0 5 "ASC" Option.none (Value.int 1) srow1 now0
    (by decide) (by decide) (by decide) (by decide)

/-- C3 counterexample: two rows match the filter and get_one raises
MultipleResultsFound instead of returning an arbitrary matching row, since
the source reads the result through scalar_one_or_none. -/
theorem get_one_multiple_counterexample :
    (cast_filter sample [("name", Value.str "b")]).result =
      Except.ok [("name", Value.str "b")] ∧
    ([srow2, srow3].filter (matchesFilters sample [("name", Value.str "b")])).length = 2 ∧
    get_one sample [srow2, srow3] [("name", Value.str "b")] =
      ⟨Except.error PyError.multipleResultsFound, 1⟩ :=
  ⟨by decide, by decide, by decide⟩

/-- C3 (amended): get_one and async_get_one cast the filters, apply them as
conjunctive equality predicates, return the absent value when no row
matches and the unique row when exactly one matches; when two or more rows
match they raise MultipleResultsFound rather than returning one of the
matching rows. -/
theorem get_one_match_semantics (m : Model) (db0 db1 db2 : List Row)
    (F cs : List (String × Value)) (r : Row)
    (hcast : (cast_filter m F).result = Except.ok cs)
    (h0 : db0.filter (matchesFilters m cs) = [])
    (h1 : db1.filter (matchesFilters m cs) = [r])
    (h2 : 2 ≤ (db2.filter (matchesFilters m cs)).length) :
    get_one m db0 F = ⟨Except.ok Option.none, 1⟩ ∧
    async_get_one m db0 F = ⟨Except.ok Option.none, 1⟩ ∧
    get_one m db1 F = ⟨Except.ok (some r), 1⟩ ∧
    async_get_one m db1 F = ⟨Except.ok (some r), 1⟩ ∧
    get_one m db2 F = ⟨Except.error PyError.multipleResultsFound, 1⟩ ∧
    async_get_one m db2 F = ⟨Except.error PyError.multipleResultsFound, 1⟩ := by
  refine ⟨?_, ?_, ?_, ?_, ?_, ?_⟩
  · simp [get_one, _apply_filters, hcast, h0, scalar_one_or_none]
  · simp [async_get_one, _apply_filters, hcast, h0, scalar_one_or_none]
  · simp [get_one, _apply_filters, hcast, h1, scalar_one_or_none]
  · simp [async_get_one, _apply_filters, hcast, h1, scalar_one_or_none]
  · simp [get_one, _apply_filters, hcast, scalar_one_or_none_multi h2]
  · simp [async_get_one, _apply_filters, hcast, scalar_one_or_none_multi h2]

/-- Witness for C3 (amended): Sample tables with zero, one and two rows
matching the name filter. -/
theorem get_one_match_semantics_wit :
    get_one sample [srow1] [("name", Value.str "b")] = ⟨Except.ok Option.none, 1⟩ ∧
    async_get_one sample [srow1] [("name", Value.str "b")] = ⟨Except.ok Option.none, 1⟩ ∧
    get_one sample [srow2] [("name", Value.str "b")] = ⟨Except.ok (some srow2), 1⟩ ∧
    async_get_one sample [srow2] [("name", Value.str "b")] = ⟨Except.ok (some srow2), 1⟩ ∧
    get_one sample [srow2, srow3] [("name", Value.str "b")] =
      ⟨Except.error PyError.multipleResultsFound, 1⟩ ∧
    async_get_one sample [srow2, srow3] [("name", Value.str "b")] =
      ⟨Except.error PyError.multipleResultsFound, 1⟩ :=
  get_one_match_semantics sample [srow1] [srow2] [srow2, srow3]
    [("name", Value.str "b")] [("name", Value.str "b")] srow2
    (by decide) (by decide) (by decide) (by decide)

/-- C1: a successful get_list (valid order, castable filters, resolvable
ordering column) returns as totalCount the number of rows matching the
filters, computed independently of skip and limit, and as items the slice
of the ordered matching rows starting at row offset skip * limit of length
at most limit; limit 0 yields no items while totalCount stays the full
count. -/
theorem get_list_pagination (m : Model) (db : List Row) (skip limit : Nat)
    (order : String) (ob : Option String) (F : List (String × Value)) (rs : List Row)
    (horder : pyLower order ∈ (["asc", "desc"] : List String))
    (hf : _apply_filters m db F = Except.ok rs)
    (hkey : m.hasField (orderKey m ob) = true) :
    get_list m db skip limit order ob F =
      ⟨Except.ok (rs.length,
        ((sortRows (orderKey m ob) (pyLower order = "desc") rs).drop (skip * limit)).take limit),
        2⟩ ∧
    async_get_list m db skip limit order ob F =
      ⟨Except.ok (rs.length,
        ((sortRows (orderKey m ob) (pyLower order = "desc") rs).drop (skip * limit)).take limit),
        2⟩ ∧
    (((sortRows (orderKey m ob) (pyLower order = "desc") rs).drop (skip * limit)).take
        limit).length ≤ limit ∧
    (limit = 0 →
      get_list m db skip limit order ob F = ⟨Except.ok (rs.length, []), 2⟩ ∧
      async_get_list m db skip limit order ob F = ⟨Except.ok (rs.length, []), 2⟩) := by
  have hmain : get_list m db skip limit order ob F =
      ⟨Except.ok (rs.length,
        ((sortRows (orderKey m ob) (pyLower order = "desc") rs).drop (skip * limit)).take limit),
        2⟩ := by
    simp [get_list, horder, hf, hkey]
  have hasync : async_get_list m db skip limit order ob F =
      ⟨Except.ok (rs.length,
        ((sortRows (orderKey m ob) (pyLower order = "desc") rs).drop (skip * limit)).take limit),
        2⟩ := by
    simp [async_get_list, horder, hf, hkey]
  refine ⟨hmain, hasync, List.length_take_le _ _, ?_⟩
  intro h
  subst h
  exact ⟨by simpa using hmain, by simpa using hasync⟩

/-- Witness for C1: Sample table of three rows, page 1 of size 2 ascending
by the default primary key, and a second application with limit 0. -/
theorem get_list_pagination_wit :
    get_list sample sdb 1 2 "asc" Option.none [] = ⟨Except.ok (3, [srow3]), 2⟩ ∧
    get_list sample sdb 0 0 "desc" Option.none [] = ⟨Except.ok (3, []), 2⟩ :=
  ⟨(get_list_pagination sample sdb 1 2 "asc" Option.none [] sdb
      (by decide) (by decide) (by decide)).1,
   ((get_list_pagination sample sdb 0 0 "desc" Option.none [] sdb
      (by decide) (by decide) (by decide)).2.2.2 rfl).1⟩

/-- C7: an order argument whose lower-casing is neither asc nor desc makes
get_list and async_get_list fail, before any query executes, with a
ValueError whose message contains the exact supplied value; any
letter-casing of asc and desc is accepted and the call proceeds to a
successful result. -/
theorem order_validation (m : Model) (db : List Row) (skip limit : Nat)
    (ob : Option String) (F : List (String × Value)) (rs : List Row) (order : String)
    (hf : _apply_filters m db F = Except.ok rs)
    (hkey : m.hasField (orderKey m ob) = true) :
    (pyLower order ∉ (["asc", "desc"] : List String) →
      get_list m db skip limit order ob F =
        ⟨Except.error (PyError.valueError
          ("Invalid order: " ++ order ++ ". Use \x27asc\x27 or \x27desc\x27.")), 0⟩ ∧
      async_get_list m db skip limit order ob F =
        ⟨Except.error (PyError.valueError
          ("Invalid order: `" ++ order ++ "`. Use \x27asc\x27 or \x27desc\x27.")), 0⟩) ∧
    (pyLower order ∈ (["asc", "desc"] : List String) →
      get_list m db skip limit order ob F =
        ⟨Except.ok (rs.length,
          ((sortRows (orderKey m ob) (pyLower order = "desc") rs).drop
            (skip * limit)).take limit), 2⟩ ∧
      async_get_list m db skip limit order ob F =
        ⟨Except.ok (rs.length,
          ((sortRows (orderKey m ob) (pyLower order = "desc") rs).drop
            (skip * limit)).take limit), 2⟩) := by
  constructor
  · intro hbad
    constructor
    · simp [get_list, hbad, order_msg]
    · simp [async_get_list, hbad, async_order_msg]
  · intro hgood
    constructor
    · simp [get_list, hgood, hf, hkey]
    · simp [async_get_list, hgood, hf, hkey]

/-- Witness for C7: the rejected value sideways (zero queries executed) and
the accepted mixed-case value DeSc. -/
theorem order_validation_wit :
    get_list sample sdb 0 5 "sideways" Option.none [] =
      ⟨Except.error (PyError.valueError
        ("Invalid order: " ++ "sideways" ++ ". Use \x27asc\x27 or \x27desc\x27.")), 0⟩ ∧
    get_list sample sdb 0 5 "DeSc" Option.none [] =
      ⟨Except.ok (3, [srow3, srow2, srow1]), 2⟩ :=
  ⟨((order_validation sample sdb 0 5 Option.none [] sdb "sideways"
      (by decide) (by decide)).1 (by decide)).1,
   ((order_validation sample sdb 0 5 Option.none [] sdb "DeSc"
      (by decide) (by decide)).2 (by decide)).1⟩

/-- C10 counterexample: the empty string names no attribute of Sample, yet
get_list with order_by equal to the empty string succeeds: the Python
`order_by or pk` fallback treats every falsy string as absent, so no
AttributeError is raised, refuting the claim for that input. -/
theorem order_by_empty_counterexample :
    sample.hasField "" = false ∧
    get_list sample sdb 0 5 "asc" (some "") [] =
      ⟨Except.ok (3, [srow1, srow2, srow3]), 2⟩ :=
  ⟨by decide, by decide⟩

/-- C10 (amended): for every non-empty order_by string naming no attribute
of the entity (with a valid order and castable filters), get_list and
async_get_list raise an AttributeError — not the invalid-argument
ValueError used for the order direction — and only after the count query
has executed (one query); the empty string instead falls back to the
primary key. -/
theorem order_by_unknown_attribute (m : Model) (db : List Row) (skip limit : Nat)
    (order : String) (s : String) (F : List (String × Value)) (rs : List Row)
    (horder : pyLower order ∈ (["asc", "desc"] : List String))
    (hf : _apply_filters m db F = Except.ok rs)
    (hs : s ≠ "")
    (hns : m.hasField s = false) :
    get_list m db skip limit order (some s) F =
      ⟨Except.error (PyError.attributeError (getattr_msg m s)), 1⟩ ∧
    async_get_list m db skip limit order (some s) F =
      ⟨Except.error (PyError.attributeError (getattr_msg m s)), 1⟩ := by
  have hkey : orderKey m (some s) = s := by simp [orderKey, hs]
  constructor
  · simp [get_list, horder, hf, hkey, hns]
  · simp [async_get_list, horder, hf, hkey, hns]

/-- Witness for C10 (amended): Sample with order_by ghost fails with the
AttributeError after the count query. -/
theorem order_by_unknown_attribute_wit :
    get_list sample sdb 0 5 "asc" (some "ghost") [] =
      ⟨Except.error (PyError.attributeError (getattr_msg sample "ghost")), 1⟩ ∧
    async_get_list sample sdb 0 5 "asc" (some "ghost") [] =
      ⟨Except.error (PyError.attributeError (getattr_msg sample "ghost")), 1⟩ :=
  order_by_unknown_attribute sample sdb 0 5 "asc" "ghost" [] sdb
    (by decide) (by decide) (by decide) (by decide)

/-- C2: on a key matching nothing, the blocking update returns the absent
value with no storage change while async_update raises a ValueError whose
message names the key value and the entity type; on a key matching one
row, with a castable payload, both forms apply the cast fields, set
updated_at to the current time exactly when the entity declares it, and
return the refreshed entity, the table now holding it. -/
theorem update_not_found_asymmetry (m : Model) (dbA dbP : List Row) (pkv : Value)
    (data cs : List (String × Value)) (now : PyDateTime) (r : Row)
    (hA : get_by_pk m dbA pkv = Except.ok Option.none)
    (hP : get_by_pk m dbP pkv = Except.ok (some r))
    (hcast : (cast_filter m data).result = Except.ok cs) :
    update m dbA pkv data now = ⟨Except.ok Option.none, 1, dbA⟩ ∧
    async_update m dbA pkv data now =
      ⟨Except.error (PyError.valueError
        ("Object with primary key `" ++ pkv.pyStr ++ "` not found in " ++ m.name ++ ".")),
        1, dbA⟩ ∧
    update m dbP pkv data now =
      ⟨Except.ok (some (if m.hasField "updated_at" then
          rowSet (applyData r cs) "updated_at" (Value.dt now) else applyData r cs)), 2,
        replaceRow dbP m.pk pkv (if m.hasField "updated_at" then
          rowSet (applyData r cs) "updated_at" (Value.dt now) else applyData r cs)⟩ ∧
    async_update m dbP pkv data now =
      ⟨Except.ok (some (if m.hasField "updated_at" then
          rowSet (applyData r cs) "updated_at" (Value.dt now) else applyData r cs)), 2,
        replaceRow dbP m.pk pkv (if m.hasField "updated_at" then
          rowSet (applyData r cs) "updated_at" (Value.dt now) else applyData r cs)⟩ := by
  refine ⟨?_, ?_, ?_, ?_⟩
  · simp [update, hA]
  · simp [async_update, hA, not_found_msg]
  · simp [update, hP, hcast]
  · simp [async_update, hP, hcast]

/-- Witness for C2: Account (which declares updated_at), an empty table for
the absent case and a one-row table for the present case. -/
theorem update_not_found_asymmetry_wit :
    update account [] (Value.int 1) [("name", Value.str "z")] now0 =
      ⟨Except.ok Option.none, 1, []⟩ ∧
    async_update account [] (Value.int 1) [("name", Value.str "z")] now0 =
      ⟨Except.error (PyError.valueError
        "Object with primary key `1` not found in Account."), 1, []⟩ ∧
    update account [arow1] (Value.int 1) [("name", Value.str "z")] now0 =
      ⟨Except.ok (some [("id", Value.int 1), ("name", Value.str "z"),
          ("updated_at", Value.dt now0), ("deleted_at", Value.none)]), 2,
        [[("id", Value.int 1), ("name", Value.str "z"),
          ("updated_at", Value.dt now0), ("deleted_at", Value.none)]]⟩ ∧
    async_update account [arow1] (Value.int 1) [("name", Value.str "z")] now0 =
      ⟨Except.ok (some [("id", Value.int 1), ("name", Value.str "z"),
          ("updated_at", Value.dt now0), ("deleted_at", Value.none)]), 2,
        [[("id", Value.int 1), ("name", Value.str "z"),
          ("updated_at", Value.dt now0), ("deleted_at", Value.none)]]⟩ :=
  update_not_found_asymmetry account [] [arow1] (Value.int 1)
    [("name", Value.str "z")] [("name", Value.str "z")] now0 arow1
    (by decide) (by decide) (by decide)

/-- C8: soft delete is a capability check.  On an absent key both forms
return false with no change, whatever the entity type.  On a present key
of an entity that does not declare deleted_at, both forms return false and
leave the row untouched; on an entity that declares deleted_at, both
forms return true, stamp the row with the current time, and the row
remains present — a subsequent lookup by key still finds it, with
deleted_at set. -/
theorem soft_delete_capability (m1 m2 : Model) (dbA1 dbA2 db1 db2 : List Row)
    (pkv : Value) (r1 r2 : Row) (now : PyDateTime)
    (hnd : m1.hasField "deleted_at" = false)
    (hyd : m2.hasField "deleted_at" = true)
    (hpk2 : m2.pk ≠ "deleted_at")
    (hA1 : get_by_pk m1 dbA1 pkv = Except.ok Option.none)
    (hA2 : get_by_pk m2 dbA2 pkv = Except.ok Option.none)
    (hP1 : get_by_pk m1 db1 pkv = Except.ok (some r1))
    (hP2 : get_by_pk m2 db2 pkv = Except.ok (some r2)) :
    soft_delete m1 dbA1 pkv now = ⟨Except.ok false, 1, dbA1⟩ ∧
    async_soft_delete m1 dbA1 pkv now = ⟨Except.ok false, 1, dbA1⟩ ∧
    soft_delete m2 dbA2 pkv now = ⟨Except.ok false, 1, dbA2⟩ ∧
    async_soft_delete m2 dbA2 pkv now = ⟨Except.ok false, 1, dbA2⟩ ∧
    soft_delete m1 db1 pkv now = ⟨Except.ok false, 1, db1⟩ ∧
    async_soft_delete m1 db1 pkv now = ⟨Except.ok false, 1, db1⟩ ∧
    soft_delete m2 db2 pkv now =
      ⟨Except.ok true, 1, replaceRow db2 m2.pk pkv (rowSet r2 "deleted_at" (Value.dt now))⟩ ∧
    async_soft_delete m2 db2 pkv now =
      ⟨Except.ok true, 2, replaceRow db2 m2.pk pkv (rowSet r2 "deleted_at" (Value.dt now))⟩ ∧
    get_by_pk m2 (replaceRow db2 m2.pk pkv (rowSet r2 "deleted_at" (Value.dt now))) pkv =
      Except.ok (some (rowSet r2 "deleted_at" (Value.dt now))) ∧
    rowGet (rowSet r2 "deleted_at" (Value.dt now)) "deleted_at" = some (Value.dt now) := by
  have hfilter : db2.filter (fun row => rowGet row m2.pk == some pkv) =
      [r2] := scalar_one_or_none_eq_some hP2
  have hr2 : (rowGet r2 m2.pk == some pkv) = true := by
    have hmem : r2 ∈ db2.filter (fun row => rowGet row m2.pk == some pkv) := by
      rw [hfilter]; exact List.mem_singleton.mpr rfl
    exact (List.mem_filter.mp hmem).2
  have hnew : (rowGet (rowSet r2 "deleted_at" (Value.dt now)) m2.pk == some pkv) = true := by
    rw [rowGet_rowSet_ne hpk2]; exact hr2
  have hlookup : get_by_pk m2
      (replaceRow db2 m2.pk pkv (rowSet r2 "deleted_at" (Value.dt now))) pkv =
      Except.ok (some (rowSet r2 "deleted_at" (Value.dt now))) := by
    unfold get_by_pk replaceRow
    rw [filter_map_replace hfilter hnew]
    rfl
  refine ⟨?_, ?_, ?_, ?_, ?_, ?_, ?_, ?_, hlookup, rowGet_rowSet_self r2 _ _⟩
  · simp [soft_delete, hA1]
  · simp [async_soft_delete, hA1]
  · simp [soft_delete, hA2]
  · simp [async_soft_delete, hA2]
  · simp [soft_delete, hP1, hnd]
  · simp [async_soft_delete, hP1, hnd]
  · simp [soft_delete, hP2, hyd]
  · simp [async_soft_delete, hP2, hyd]

/-- Witness for C8: Sample (no deleted_at column) and Account (with one),
empty tables for the absent case and one-row tables for the present case. -/
theorem soft_delete_capability_wit :
    soft_delete sample [] (Value.int 1) now0 = ⟨Except.ok false, 1, []⟩ ∧
    async_soft_delete sample [] (Value.int 1) now0 = ⟨Except.ok false, 1, []⟩ ∧
    soft_delete account [] (Value.int 1) now0 = ⟨Except.ok false, 1, []⟩ ∧
    async_soft_delete account [] (Value.int 1) now0 = ⟨Except.ok false, 1, []⟩ ∧
    soft_delete sample [srow1] (Value.int 1) now0 = ⟨Except.ok false, 1, [srow1]⟩ ∧
    async_soft_delete sample [srow1] (Value.int 1) now0 = ⟨Except.ok false, 1, [srow1]⟩ ∧
    soft_delete account [arow1] (Value.int 1) now0 =
      ⟨Except.ok true, 1,
        replaceRow [arow1] account.pk (Value.int 1)
          (rowSet arow1 "deleted_at" (Value.dt now0))⟩ ∧
    async_soft_delete account [arow1] (Value.int 1) now0 =
      ⟨Except.ok true, 2,
        replaceRow [arow1] account.pk (Value.int 1)
          (rowSet arow1 "deleted_at" (Value.dt now0))⟩ ∧
    get_by_pk account
        (replaceRow [arow1] account.pk (Value.int 1)
          (rowSet arow1 "deleted_at" (Value.dt now0))) (Value.int 1) =
      Except.ok (some (rowSet arow1 "deleted_at" (Value.dt now0))) ∧
    rowGet (rowSet arow1 "deleted_at" (Value.dt now0)) "deleted_at" =
      some (Value.dt now0) :=
  soft_delete_capability sample account [] [] [srow1] [arow1] (Value.int 1) srow1 arow1 now0
    (by decide) (by decide) (by decide) (by decide) (by decide) (by decide) (by decide)

end Boilerplate
